import Mathlib

/-!
# Registry image resource: the `check` command

A shallow embedding of `commands/check.go` (`Execute`, `checkWithRetry`,
`performCheck`, `checkMissingManifest`) together with the few library and
package types it touches, followed by theorems about single-tag checking, the
mirror fallback, the error paths of `Execute`, what `Execute` does with a tag
selection policy, the errors of the cursor lookup and of the mirror, and
`checkMissingManifest`.

Lines quoted as "line n" are lines of `commands/check.go`.

Conventions of the embedding:

* a Go `error` value is `Option Error` (`none` is `nil`);
* a Go pair `(CheckResponse, error)` is the structure `CheckResult`, which also
  carries the ordered log of `remote.Image` requests the call issued, so that
  "is never looked up" and "never contacts" can be stated;
* the registry is a function from a reference (and the request options) to
  either an image or an error, fixed for the duration of one invocation.
-/

namespace RegistryImage

/-! ## Errors -/

/-- One entry of a registry error body (`transport.Diagnostic`). -/
structure Diagnostic where
  Code : String
  Message : String
deriving DecidableEq, Repr

/-- The code a registry reports for a manifest it does not know
(`transport.ManifestUnknownErrorCode`). -/
def ManifestUnknownErrorCode : String := "MANIFEST_UNKNOWN"

/-- A registry error response (`transport.Error`). -/
structure TransportError where
  Errors : List Diagnostic
  StatusCode : Nat
deriving DecidableEq, Repr

/-- Go error values seen by the check command. `errorfW text cause` is
`fmt.Errorf("text: %w", cause)`, `errorfS text cause` is
`fmt.Errorf("text: %s", cause)`; `other` is any error that is not a
`*transport.Error`. -/
inductive Error where
  | transport (rErr : TransportError)
  | errorfW (text : String) (cause : Error)
  | errorfS (text : String) (cause : Error)
  | other (text : String)
deriving DecidableEq, Repr

/-! ## Names (go-containerregistry `name` package) -/

/-- A registry host (`name.Registry`). -/
structure Registry where
  registry : String
deriving DecidableEq, Repr

/-- A repository on a registry (`name.Repository`). -/
structure Repository where
  Registry : Registry
  repository : String
deriving DecidableEq, Repr

/-- A tag reference (`name.Tag`). -/
structure Tag where
  Repository : Repository
  tag : String
deriving DecidableEq, Repr

/-- A digest reference (`name.Digest`). -/
structure Digest where
  Repository : Repository
  digest : String
deriving DecidableEq, Repr

/-- Either kind of reference (`name.Reference`). -/
inductive Reference where
  | tag (t : Tag)
  | digest (d : Digest)
deriving DecidableEq, Repr

/-- The repository a reference lives in (`Reference.Context()`). -/
def Reference.Context : Reference → Repository
  | .tag t => t.Repository
  | .digest d => d.Repository

/-- A tag reference inside a repository: `Repository.Tag(identifier)`. -/
def Repository.Tag (r : Repository) (identifier : String) : Tag :=
  { Repository := r, tag := identifier }

/-- A digest reference inside a repository: `Repository.Digest(identifier)`. -/
def Repository.Digest (r : Repository) (identifier : String) : Digest :=
  { Repository := r, digest := identifier }

/-- Option passed to the name parsers (`name.WeakValidation`). -/
inductive NameOption where
  | WeakValidation
deriving DecidableEq, Repr

/-! ## Images and request options -/

/-- A content hash (`v1.Hash`). -/
structure Hash where
  Algorithm : String
  Hex : String
deriving DecidableEq, Repr

/-- Text form of a hash: `Hash.String()`. -/
def Hash.String (h : Hash) : String := h.Algorithm ++ ":" ++ h.Hex

/-- A remote image handle (`v1.Image`); only `Digest()` is used by the check. -/
structure Image where
  Digest : Except Error Hash

/-- Basic credentials of the resource package (`resource.BasicCredentials`). -/
structure BasicCredentials where
  Username : String
  Password : String
deriving DecidableEq, Repr

/-- Basic authenticator (`authn.Basic`). -/
structure Basic where
  Username : String
  Password : String
deriving DecidableEq, Repr

/-- Options of a registry request (`remote.Option`); the check only ever
builds `remote.WithAuth`. -/
inductive RemoteOption where
  | WithAuth (auth : Basic)
deriving DecidableEq, Repr

/-- The registry client call `remote.Image(ref, opts...)`. -/
abbrev RemoteImage := Reference → List RemoteOption → Except Error Image

/-! ## Versions -/

/-- Modelled from the spec: the declaration of `resource.Version` is not part
of the sources at hand. "Version: tag (string label, mutable over time) and
digest (content hash)"; a field left out of a Go composite literal is the empty
string. -/
structure Version where
  Tag : String := ""
  Digest : String
deriving DecidableEq, Repr

/-- The response of a check: `type CheckResponse []resource.Version`. -/
abbrev CheckResponse := List Version

/-- What a check call hands back: the Go pair `(CheckResponse, error)`, and
the `remote.Image` requests issued, oldest first. -/
structure CheckResult where
  response : CheckResponse
  err : Option Error
  calls : List Reference
deriving DecidableEq, Repr

/-! ## `checkMissingManifest` -/

/-- The loop of `checkMissingManifest` over `rErr.Errors`: `missing` becomes
true at the first entry whose code is `MANIFEST_UNKNOWN`, and the loop stops
there. -/
def checkMissingManifest.scan : List Diagnostic → Bool → Bool
  | [], missing => missing
  | e :: rest, missing =>
    if e.Code = ManifestUnknownErrorCode then true
    else checkMissingManifest.scan rest missing

/-- Function `checkMissingManifest` of `check.go`: the type assertion
`err.(*transport.Error)` accepts a transport error only (not one wrapped by
`fmt.Errorf`), whose entries are then scanned. -/
def checkMissingManifest (err : Error) : Bool :=
  match err with
  | .transport rErr => checkMissingManifest.scan rErr.Errors false
  | _ => false

/-! ## `performCheck` -/

/-- The request options `performCheck` builds: the authenticator is added only
when both the user name and the password are non-empty. -/
def imageOpts (principal : BasicCredentials) : List RemoteOption :=
  let auth : Basic := { Username := principal.Username, Password := principal.Password }
  if auth.Username ≠ "" ∧ auth.Password ≠ "" then [RemoteOption.WithAuth auth] else []

/-- Function `performCheck` of `check.go`.

The Go body is straight-line code steered by the flags `missingTag` and
`missingDigest`; each branch below is one path through it:

* `remote.Image(ref)` fails: with `missingTag` the digest is never read, the
  cursor block and the final append are both skipped and the empty response is
  returned without error; otherwise the error is wrapped and returned;
* `image.Digest()` fails: error;
* the cursor block runs only for a cursor whose digest differs from
  `digest.String()`; it resolves `ref.Repository.Digest(version.Digest)` and
  appends the cursor unless that digest is missing;
* finally `resource.Version{Digest: digest.String()}` is appended. -/
def performCheck (remote : RemoteImage) (principal : BasicCredentials)
    (version : Option Version) (ref : Tag) : CheckResult :=
  let opts := imageOpts principal
  match remote (.tag ref) opts with
  | .error err =>
    let missingTag := checkMissingManifest err
    if !missingTag then
      { response := [], err := some (.errorfW "get remote image" err), calls := [.tag ref] }
    else
      { response := [], err := none, calls := [.tag ref] }
  | .ok image =>
    match image.Digest with
    | .error err =>
      { response := [], err := some (.errorfW "get cursor image digest" err),
        calls := [.tag ref] }
    | .ok digest =>
      let current : Version := { Digest := digest.String }
      match version with
      | none => { response := [current], err := none, calls := [.tag ref] }
      | some version =>
        if version.Digest ≠ digest.String then
          let digestRef := ref.Repository.Digest version.Digest
          match remote (.digest digestRef) opts with
          | .error err =>
            let missingDigest := checkMissingManifest err
            if !missingDigest then
              { response := [], err := some (.errorfW "get remote image" err),
                calls := [.tag ref, .digest digestRef] }
            else
              { response := [current], err := none,
                calls := [.tag ref, .digest digestRef] }
          | .ok digestImage =>
            match digestImage.Digest with
            | .error err =>
              { response := [], err := some (.errorfW "get cursor image digest" err),
                calls := [.tag ref, .digest digestRef] }
            | .ok _ =>
              { response := [version, current], err := none,
                calls := [.tag ref, .digest digestRef] }
        else
          { response := [current], err := none, calls := [.tag ref] }

/-! ## Requests -/

/-- Mirror settings of a source (`resource.RegistryMirror`). -/
structure RegistryMirror where
  Host : String
  BasicCredentials : BasicCredentials
deriving DecidableEq, Repr

/-- Modelled from the spec: the declaration of `resource.Source` is not part
of the sources at hand. The first seven fields are the part of the source that
`check.go` reads. The last three are the "optional regular expression; optional
semantic-version range constraint; optional variant label" of the source
configuration, empty when not set; `check.go` never reads them. -/
structure Source where
  Repository : String
  RawTag : String
  BasicCredentials : BasicCredentials
  AwsAccessKeyId : String
  AwsSecretAccessKey : String
  AwsRegion : String
  RegistryMirror : Option RegistryMirror
  Regex : String := ""
  SemverConstraint : String := ""
  Variant : String := ""
deriving DecidableEq, Repr

/-- Modelled from the spec: the method `Source.Tag()` is not part of the
sources at hand. "optional fixed tag (default latest)". -/
def Source.Tag (source : Source) : String :=
  if source.RawTag ≠ "" then source.RawTag else "latest"

/-- The request read from standard input: `type CheckRequest struct`. A nil
`*resource.Version` is `none`. -/
structure CheckRequest where
  Source : Source
  Version : Option Version
deriving DecidableEq, Repr

/-- A warning written through `logrus.Warnf` by `Execute`. -/
inductive Warning where
  | mirrorFailed (registry : String) (err : Error)
  | mirrorTagNotFound (registry : String)
deriving DecidableEq, Repr

/-- The collaborators of `Execute` that live outside `check.go`: the JSON
decoder on standard input, the token exchange behind `AuthenticateToECR`, the
name parsers and printers of go-containerregistry, the registry client, the
rate-limit classification and retry bound of `RetryOnRateLimit`, and the JSON
encoder on standard output (`none` when the write succeeds). -/
structure Env where
  Decode : String → Except Error CheckRequest
  ExchangeToken : String → String → String → Option BasicCredentials
  NewRepository : String → List NameOption → Except Error Repository
  NewRegistry : String → List NameOption → Except Error Registry
  RepositoryString : Repository → String
  RegistryStr : Registry → String
  remote : RemoteImage
  isRateLimit : Error → Bool
  retries : Nat
  Encode : CheckResponse → Option Error

/-- Modelled from the spec: the method `Source.AuthenticateToECR` is not part
of the sources at hand. "Credential Provider: supplies either static basic
credentials or a provider-issued token given access-key/secret/region inputs".
The method reports success as a boolean and stores the issued credentials in
the source it is called on; `none` is a returned `false`. -/
def Source.AuthenticateToECR (env : Env) (source : Source) : Option Source :=
  match env.ExchangeToken source.AwsAccessKeyId source.AwsSecretAccessKey source.AwsRegion with
  | none => none
  | some creds => some { source with BasicCredentials := creds }

/-! ## `checkWithRetry` -/

/-- Modelled from the spec: `resource.RetryOnRateLimit` is not part of the
sources at hand. "Any transport error classified as rate-limiting is retried
with bounded exponential backoff before being treated as success/failure;
non-rate-limit errors are not retried at this layer." The retried operation is
a Go closure, here a transition on the variables it captures; the first
argument classifies an error and the second bounds the further attempts. -/
def RetryOnRateLimit {σ : Type} (isRateLimit : Error → Bool) :
    Nat → (σ → Option Error × σ) → σ → Option Error × σ
  | 0, f, s => f s
  | retries + 1, f, s =>
    match f s with
    | (none, s1) => (none, s1)
    | (some err, s1) =>
      if isRateLimit err then RetryOnRateLimit isRateLimit retries f s1
      else (some err, s1)

/-- Function `checkWithRetry` of `check.go`: the closure assigns the captured
`response` on every attempt, so the pair returned is that of the last attempt;
the request log accumulates over all attempts. -/
def checkWithRetry (env : Env) (principal : BasicCredentials)
    (version : Option Version) (ref : Tag) : CheckResult :=
  let attempt : CheckResponse × List Reference →
      Option Error × (CheckResponse × List Reference) := fun st =>
    let r := performCheck env.remote principal version ref
    (r.err, (r.response, st.2 ++ r.calls))
  let out := RetryOnRateLimit env.isRateLimit env.retries attempt ([], [])
  { response := out.2.1, err := out.1, calls := out.2.2 }

/-! ## `Execute` -/

/-- What one run of `Execute` leaves behind: the error it returns, the
response written to standard output (if any), the warnings logged and the
registry requests issued. -/
structure Outcome where
  err : Option Error
  stdout : Option CheckResponse
  warnings : List Warning
  calls : List Reference
deriving DecidableEq, Repr

/-- Lines 98-103 of `Execute`: encode the response on standard output. -/
def Execute.emit (env : Env) (response : CheckResponse) (warnings : List Warning)
    (calls : List Reference) : Outcome :=
  match env.Encode response with
  | some err =>
    { err := some (.errorfS "could not marshal JSON" err), stdout := none,
      warnings := warnings, calls := calls }
  | none => { err := none, stdout := some response, warnings := warnings, calls := calls }

/-- Lines 90-103 of `Execute`, entered with the `response` left by the mirror
block (empty when there is no mirror). The `err` tested at line 94 is the one
declared at the top of `Execute`: the mirror block declares its own `err`
(`mirror, err := ...`), so at line 94 the outer one is non-nil only when the
origin check at line 92 has just set it, and `tag` then is the origin tag. -/
def Execute.origin (env : Env) (source : Source) (version : Option Version)
    (repo : Repository) (response : CheckResponse) (warnings : List Warning)
    (calls : List Reference) : Outcome :=
  if response.length = 0 then
    let tag := repo.Tag source.Tag
    let r := checkWithRetry env source.BasicCredentials version tag
    match r.err with
    | some err =>
      { err := some (.errorfS
          ("checking origin " ++ env.RegistryStr tag.Repository.Registry ++ " failed") err),
        stdout := none, warnings := warnings, calls := calls ++ r.calls }
    | none => Execute.emit env r.response warnings (calls ++ r.calls)
  else
    Execute.emit env response warnings calls

/-- Method `Execute` of `check.go`, from the bytes on standard input to the
outcome of the run. -/
def Execute (env : Env) (stdin : String) : Outcome :=
  match env.Decode stdin with
  | .error err =>
    { err := some (.errorfS "invalid payload" err), stdout := none, warnings := [],
      calls := [] }
  | .ok req =>
    let authenticated : Option Source :=
      if req.Source.AwsAccessKeyId ≠ "" ∧ req.Source.AwsSecretAccessKey ≠ "" ∧
          req.Source.AwsRegion ≠ "" then
        req.Source.AuthenticateToECR env
      else some req.Source
    match authenticated with
    | none =>
      { err := some (.other "cannot authenticate with ECR"), stdout := none,
        warnings := [], calls := [] }
    | some source =>
      match env.NewRepository source.Repository [NameOption.WeakValidation] with
      | .error err =>
        { err := some (.errorfS "failed to resolve repository" err), stdout := none,
          warnings := [], calls := [] }
      | .ok repo =>
        match source.RegistryMirror with
        | none => Execute.origin env source req.Version repo [] [] []
        | some registryMirror =>
          match env.NewRepository (env.RepositoryString repo) [] with
          | .error err =>
            { err := some (.errorfS "could not resolve mirror repository" err),
              stdout := none, warnings := [], calls := [] }
          | .ok mirror0 =>
            match env.NewRegistry registryMirror.Host [NameOption.WeakValidation] with
            | .error err =>
              { err := some (.errorfS "could not resolve registry" err), stdout := none,
                warnings := [], calls := [] }
            | .ok registry =>
              let mirror : Repository := { mirror0 with Registry := registry }
              let tag := mirror.Tag source.Tag
              let r := checkWithRetry env registryMirror.BasicCredentials req.Version tag
              let warnings : List Warning :=
                match r.err with
                | some err => [Warning.mirrorFailed (env.RegistryStr mirror.Registry) err]
                | none =>
                  if r.response.length = 0 then
                    [Warning.mirrorTagNotFound (env.RegistryStr mirror.Registry)]
                  else []
              Execute.origin env source req.Version repo r.response warnings r.calls

/-! ## A sample registry

Concrete collaborators on which the definitions above are evaluated: a
repository `concourse/test-image-static` on the default registry whose tag
`latest` points at `sha256:bbb`, in which the older image `sha256:aaa` is still
stored, and an unrelated mirror host that serves the same repository only
under the tag `mirrored`. -/

namespace Sample

/-- The default registry. -/
def hub : Registry := { registry := "index.docker.io" }

/-- The mirror host. -/
def mirrorHost : Registry := { registry := "mirror.example:5000" }

/-- The repository on the default registry. -/
def repo : Repository := { Registry := hub, repository := "concourse/test-image-static" }

/-- The same repository path on the mirror. -/
def mirrorRepo : Repository :=
  { Registry := mirrorHost, repository := "concourse/test-image-static" }

/-- The newest image. -/
def latestHash : Hash := { Algorithm := "sha256", Hex := "bbb" }

/-- An older image that is still stored. -/
def olderHash : Hash := { Algorithm := "sha256", Hex := "aaa" }

/-- The image served by the mirror. -/
def mirroredHash : Hash := { Algorithm := "sha256", Hex := "ccc" }

/-- The error body of a registry that does not know a manifest. -/
def manifestUnknown : Error :=
  .transport { Errors := [{ Code := "MANIFEST_UNKNOWN", Message := "manifest unknown" }],
               StatusCode := 404 }

/-- The registry contents described above. The origin refuses the connection
for the tag `mirrored`; every other reference is unknown. -/
def remote : RemoteImage := fun ref _ =>
  if ref = .tag (repo.Tag "latest") then .ok { Digest := .ok latestHash }
  else if ref = .digest (repo.Digest "sha256:bbb") then .ok { Digest := .ok latestHash }
  else if ref = .digest (repo.Digest "sha256:aaa") then .ok { Digest := .ok olderHash }
  else if ref = .tag (mirrorRepo.Tag "mirrored") then .ok { Digest := .ok mirroredHash }
  else if ref = .tag (repo.Tag "mirrored") then .error (.other "connection refused")
  else .error manifestUnknown

/-- Anonymous access. -/
def anonymous : BasicCredentials := { Username := "", Password := "" }

/-- A source tracking `tag` in the sample repository, with or without the
mirror. -/
def source (tag : String) (mirror : Bool) : Source :=
  { Repository := "concourse/test-image-static", RawTag := tag,
    BasicCredentials := anonymous, AwsAccessKeyId := "", AwsSecretAccessKey := "",
    AwsRegion := "",
    RegistryMirror :=
      if mirror then some { Host := "mirror.example:5000", BasicCredentials := anonymous }
      else none }

/-- The collaborators of the sample run. Standard input is one of four named
payloads; repository names parse the way go-containerregistry parses them for
the sample repository; a transport error with status 429 is a rate limit. -/
def env : Env :=
  { Decode := fun stdin =>
      if stdin = "latest via mirror" then .ok { Source := source "latest" true, Version := none }
      else if stdin = "latest" then .ok { Source := source "latest" false, Version := none }
      else if stdin = "mirrored via mirror" then
        .ok { Source := source "mirrored" true, Version := none }
      else if stdin = "mirrored" then
        .ok { Source := source "mirrored" false, Version := none }
      else .error (.other "unexpected end of JSON input"),
    ExchangeToken := fun _ _ _ => none,
    NewRepository := fun name _ =>
      if name = "concourse/test-image-static" then .ok repo
      else if name = "index.docker.io/concourse/test-image-static" then .ok repo
      else .error (.other "could not parse reference"),
    NewRegistry := fun host _ => .ok { registry := host },
    RepositoryString := fun r => r.Registry.registry ++ "/" ++ r.repository,
    RegistryStr := fun r => if r.registry ≠ "" then r.registry else "index.docker.io",
    remote := remote,
    isRateLimit := fun err =>
      match err with
      | .transport rErr => rErr.StatusCode = 429
      | _ => false,
    retries := 3,
    Encode := fun _ => none }

end Sample

/-! ## Further sample runs

A second set of collaborators, which extends the first with: a repository
`some/fake-image` named with the explicit host `registry.example:5000`, where
`latest` is `sha256:ddd`, while the mirror holds `sha256:eee` under the same
path; a repository `test-image` whose only tags are the semantic versions
`1.0.0`, `1.2.1` and `2.0.0`, each with its own image; a repository
`colour-image` with the tags `1.2.1`, `latest`, `gray` and `grey`, and a tag
`private` that the registry refuses to serve; a payload whose repository does
not parse; and a payload with cloud-token credentials. -/

namespace Sample

/-- The registry host named inside the repository string. -/
def namedHost : Registry := { registry := "registry.example:5000" }

/-- The repository on the named host. -/
def namedRepo : Repository := { Registry := namedHost, repository := "some/fake-image" }

/-- The repository tagged with semantic versions only. -/
def semverRepo : Repository := { Registry := hub, repository := "test-image" }

/-- The repository tagged with versions and plain words. -/
def colourRepo : Repository := { Registry := hub, repository := "colour-image" }

/-- An image known by its hexadecimal name. -/
def imageOf (hex : String) : Except Error Image :=
  .ok { Digest := .ok { Algorithm := "sha256", Hex := hex } }

/-- The registry contents of the second sample: the first sample's, and the
three repositories described above. -/
def remoteMore : RemoteImage := fun ref opts =>
  if ref = .tag (namedRepo.Tag "latest") then imageOf "ddd"
  else if ref = .tag (Repository.Tag { namedRepo with Registry := mirrorHost } "latest") then
    imageOf "eee"
  else if ref = .tag (semverRepo.Tag "1.0.0") then imageOf "111"
  else if ref = .tag (semverRepo.Tag "1.2.1") then imageOf "333"
  else if ref = .tag (semverRepo.Tag "2.0.0") then imageOf "555"
  else if ref = .digest (semverRepo.Digest "sha256:333") then imageOf "333"
  else if ref = .tag (colourRepo.Tag "1.2.1") then imageOf "333"
  else if ref = .tag (colourRepo.Tag "latest") then imageOf "666"
  else if ref = .tag (colourRepo.Tag "gray") then imageOf "777"
  else if ref = .tag (colourRepo.Tag "grey") then imageOf "888"
  else if ref = .tag (colourRepo.Tag "private") then
    .error (.transport { Errors := [{ Code := "UNAUTHORIZED", Message := "access denied" }],
                         StatusCode := 401 })
  else remote ref opts

/-- A source with nothing set but the repository. -/
def bare (repository : String) : Source :=
  { Repository := repository, RawTag := "", BasicCredentials := anonymous,
    AwsAccessKeyId := "", AwsSecretAccessKey := "", AwsRegion := "",
    RegistryMirror := none }

/-- The payloads of the second sample, by name. -/
def decodeMore (stdin : String) : Except Error CheckRequest :=
  if stdin = "named host via mirror" then
    .ok { Source := { bare "registry.example:5000/some/fake-image" with
            RegistryMirror :=
              some { Host := "mirror.example:5000", BasicCredentials := anonymous } },
          Version := none }
  else if stdin = "named host" then
    .ok { Source := bare "registry.example:5000/some/fake-image", Version := none }
  else if stdin = "semver tags" then
    .ok { Source := bare "test-image", Version := none }
  else if stdin = "semver tags from 1.2.1" then
    .ok { Source := bare "test-image",
          Version := some { Tag := "1.2.1", Digest := "sha256:333" } }
  else if stdin = "semver tags from bogus" then
    .ok { Source := bare "test-image",
          Version := some { Tag := "1.2.1", Digest := "bogus" } }
  else if stdin = "regex over semver constraint" then
    .ok { Source := { bare "colour-image" with
            Regex := "gr(a|e)y", SemverConstraint := "1.2.x" },
          Version := none }
  else if stdin = "no regex" then
    .ok { Source := bare "colour-image", Version := none }
  else if stdin = "unparsable repository" then
    .ok { Source := bare "Not A Repository", Version := none }
  else if stdin = "cloud token" then
    .ok { Source := { source "latest" false with
            AwsAccessKeyId := "AKIA", AwsSecretAccessKey := "secret",
            AwsRegion := "eu-west-1" },
          Version := none }
  else env.Decode stdin

/-- The name parser of the second sample. -/
def newRepositoryMore (name : String) (opts : List NameOption) : Except Error Repository :=
  if name = "registry.example:5000/some/fake-image" then .ok namedRepo
  else if name = "test-image" then .ok semverRepo
  else if name = "index.docker.io/test-image" then .ok semverRepo
  else if name = "colour-image" then .ok colourRepo
  else if name = "index.docker.io/colour-image" then .ok colourRepo
  else env.NewRepository name opts

/-- The collaborators of the second sample; the token exchange always fails. -/
def envMore : Env :=
  { env with Decode := decodeMore, NewRepository := newRepositoryMore, remote := remoteMore }

end Sample

/-! ## Sample runs with failures

A third registry, which is the second one except that the mirror host is out
of reach and that two digests of the first repository fail to resolve: the
registry refuses `sha256:locked`, and the image found for `sha256:broken`
cannot compute its digest. A last set of collaborators has a registry-name
parser that rejects the mirror's host. -/

namespace Sample

/-- The registry error of a refused request. -/
def unauthorized : Error :=
  .transport { Errors := [{ Code := "UNAUTHORIZED", Message := "access denied" }],
               StatusCode := 401 }

/-- The registry contents of the third sample. -/
def remoteFaulty : RemoteImage := fun ref opts =>
  if ref.Context.Registry = mirrorHost then .error (.other "connection refused")
  else if ref = .digest (repo.Digest "sha256:locked") then .error unauthorized
  else if ref = .digest (repo.Digest "sha256:broken") then
    .ok { Digest := .error (.other "unexpected EOF") }
  else remoteMore ref opts

/-- The collaborators of the third sample. -/
def envFaulty : Env := { envMore with remote := remoteFaulty }

/-- Collaborators whose registry-name parser rejects the mirror's host. -/
def envNoRegistry : Env :=
  { envMore with
    NewRegistry := fun host _ =>
      if host = "mirror.example:5000" then .error (.other "could not parse registry")
      else .ok { registry := host } }

end Sample

/-! ## Theorems: `performCheck` -/

/-- C1. Single-tag check with no cursor: when the tag resolves to an image
whose digest is `digest`, `performCheck` with no cursor returns no error and a
response of exactly one Version, whose digest is `digest`. -/
theorem performCheck_no_cursor (remote : RemoteImage) (principal : BasicCredentials)
    (ref : Tag) (image : Image) (digest : Hash)
    (hImage : remote (.tag ref) (imageOpts principal) = .ok image)
    (hDigest : image.Digest = .ok digest) :
    (performCheck remote principal none ref).err = none ∧
    ∃ current : Version,
      (performCheck remote principal none ref).response = [current] ∧
      current.Digest = digest.String := by
  simp [performCheck, hImage, hDigest]

/-- Witness of C1 on the sample registry: the tag `latest` resolves to
`sha256:bbb`. -/
theorem performCheck_no_cursor_witness :
    (performCheck Sample.remote Sample.anonymous none (Sample.repo.Tag "latest")).err = none ∧
    ∃ current : Version,
      (performCheck Sample.remote Sample.anonymous none
        (Sample.repo.Tag "latest")).response = [current] ∧
      current.Digest = Sample.latestHash.String :=
  performCheck_no_cursor Sample.remote Sample.anonymous (Sample.repo.Tag "latest")
    { Digest := .ok Sample.latestHash } Sample.latestHash (by simp [Sample.remote]) rfl

/-- The scan of `checkMissingManifest` finds an entry with the missing-manifest
code wherever it is in the list. -/
theorem checkMissingManifest_scan_of_mem (errors : List Diagnostic) (missing : Bool)
    (h : ∃ e ∈ errors, e.Code = ManifestUnknownErrorCode) :
    checkMissingManifest.scan errors missing = true := by
  induction errors with
  | nil => simp at h
  | cons e rest ih =>
    by_cases he : e.Code = ManifestUnknownErrorCode
    · simp [checkMissingManifest.scan, he]
    · have hrest : ∃ x ∈ rest, x.Code = ManifestUnknownErrorCode := by
        obtain ⟨x, hx, hcode⟩ := h
        rcases List.mem_cons.mp hx with hxe | hxr
        · exact absurd (hxe ▸ hcode) he
        · exact ⟨x, hxr, hcode⟩
      simp [checkMissingManifest.scan, he, ih hrest]

/-- A transport error carrying a `MANIFEST_UNKNOWN` entry is a missing
manifest. -/
theorem checkMissingManifest_transport_of_mem (rErr : TransportError)
    (h : ∃ e ∈ rErr.Errors, e.Code = ManifestUnknownErrorCode) :
    checkMissingManifest (.transport rErr) = true := by
  simp [checkMissingManifest, checkMissingManifest_scan_of_mem rErr.Errors false h]

/-- C2, as stated, fails. On the sample registry the tag `latest` resolves to
`sha256:bbb`; for the cursor `stable` / `sha256:bbb`, whose digest is that
current digest, the response is not the one-element sequence holding the
cursor. -/
theorem performCheck_up_to_date_cursor_not_returned :
    (∃ image, Sample.remote (.tag (Sample.repo.Tag "latest")) (imageOpts Sample.anonymous)
        = .ok image ∧ image.Digest = .ok Sample.latestHash) ∧
    ({ Tag := "stable", Digest := "sha256:bbb" } : Version).Digest
      = Sample.latestHash.String ∧
    (performCheck Sample.remote Sample.anonymous
        (some { Tag := "stable", Digest := "sha256:bbb" })
        (Sample.repo.Tag "latest")).response
      ≠ [{ Tag := "stable", Digest := "sha256:bbb" }] :=
  ⟨⟨{ Digest := .ok Sample.latestHash }, by rfl, rfl⟩, by decide, by decide⟩

/-- C2, amended. Single-tag check with an up-to-date cursor: when the tag
resolves to `digest` and the cursor's digest equals it, `performCheck` returns
no error and exactly one Version, whose digest is the cursor's digest, and the
only request issued is the one for the tag: the cursor's digest is not resolved
again. -/
theorem performCheck_up_to_date_cursor (remote : RemoteImage)
    (principal : BasicCredentials) (cursor : Version) (ref : Tag)
    (image : Image) (digest : Hash)
    (hImage : remote (.tag ref) (imageOpts principal) = .ok image)
    (hDigest : image.Digest = .ok digest)
    (hSame : cursor.Digest = digest.String) :
    (performCheck remote principal (some cursor) ref).err = none ∧
    (∃ current : Version,
      (performCheck remote principal (some cursor) ref).response = [current] ∧
      current.Digest = cursor.Digest) ∧
    (performCheck remote principal (some cursor) ref).calls = [.tag ref] := by
  simp [performCheck, hImage, hDigest, hSame]

/-- Witness of the amended C2 on the sample registry, with the cursor
`latest` / `sha256:bbb`. -/
theorem performCheck_up_to_date_cursor_witness :
    (performCheck Sample.remote Sample.anonymous
      (some { Tag := "latest", Digest := "sha256:bbb" }) (Sample.repo.Tag "latest")).err = none ∧
    (∃ current : Version,
      (performCheck Sample.remote Sample.anonymous
        (some { Tag := "latest", Digest := "sha256:bbb" })
        (Sample.repo.Tag "latest")).response = [current] ∧
      current.Digest = ({ Tag := "latest", Digest := "sha256:bbb" } : Version).Digest) ∧
    (performCheck Sample.remote Sample.anonymous
      (some { Tag := "latest", Digest := "sha256:bbb" }) (Sample.repo.Tag "latest")).calls
      = [.tag (Sample.repo.Tag "latest")] :=
  performCheck_up_to_date_cursor Sample.remote Sample.anonymous
    { Tag := "latest", Digest := "sha256:bbb" } (Sample.repo.Tag "latest")
    { Digest := .ok Sample.latestHash } Sample.latestHash (by rfl) rfl (by decide)

/-- C3. Single-tag check with a valid but out-of-date cursor: when the tag
resolves to `digest`, the cursor's digest differs from it and the cursor's
digest still resolves in the same repository, `performCheck` returns no error
and exactly two Versions: the cursor, unchanged, then a Version whose digest is
`digest`. -/
theorem performCheck_out_of_date_cursor (remote : RemoteImage)
    (principal : BasicCredentials) (cursor : Version) (ref : Tag)
    (image digestImage : Image) (digest cursorHash : Hash)
    (hImage : remote (.tag ref) (imageOpts principal) = .ok image)
    (hDigest : image.Digest = .ok digest)
    (hDiffer : cursor.Digest ≠ digest.String)
    (hCursorImage : remote (.digest (ref.Repository.Digest cursor.Digest))
      (imageOpts principal) = .ok digestImage)
    (hCursorDigest : digestImage.Digest = .ok cursorHash) :
    (performCheck remote principal (some cursor) ref).err = none ∧
    ∃ current : Version,
      (performCheck remote principal (some cursor) ref).response = [cursor, current] ∧
      current.Digest = digest.String := by
  simp [performCheck, hImage, hDigest, hDiffer, hCursorImage, hCursorDigest]

/-- Witness of C3 on the sample registry: the cursor `sha256:aaa` is still
stored while `latest` has moved to `sha256:bbb`. -/
theorem performCheck_out_of_date_cursor_witness :
    (performCheck Sample.remote Sample.anonymous
      (some { Tag := "latest", Digest := "sha256:aaa" }) (Sample.repo.Tag "latest")).err = none ∧
    ∃ current : Version,
      (performCheck Sample.remote Sample.anonymous
        (some { Tag := "latest", Digest := "sha256:aaa" })
        (Sample.repo.Tag "latest")).response
        = [{ Tag := "latest", Digest := "sha256:aaa" }, current] ∧
      current.Digest = Sample.latestHash.String :=
  performCheck_out_of_date_cursor Sample.remote Sample.anonymous
    { Tag := "latest", Digest := "sha256:aaa" } (Sample.repo.Tag "latest")
    { Digest := .ok Sample.latestHash } { Digest := .ok Sample.olderHash }
    Sample.latestHash Sample.olderHash
    (by simp [Sample.remote]) rfl (by decide) (by rfl) rfl

/-- C4. Single-tag check with a stale cursor: when the tag resolves to
`digest`, the cursor's digest differs from it and resolving the cursor's digest
fails with a registry error that carries a `MANIFEST_UNKNOWN` entry,
`performCheck` returns no error and exactly one Version, whose digest is
`digest`; the cursor is not part of the response. -/
theorem performCheck_stale_cursor (remote : RemoteImage)
    (principal : BasicCredentials) (cursor : Version) (ref : Tag)
    (image : Image) (digest : Hash) (rErr : TransportError)
    (hImage : remote (.tag ref) (imageOpts principal) = .ok image)
    (hDigest : image.Digest = .ok digest)
    (hDiffer : cursor.Digest ≠ digest.String)
    (hCursorImage : remote (.digest (ref.Repository.Digest cursor.Digest))
      (imageOpts principal) = .error (.transport rErr))
    (hUnknown : ∃ e ∈ rErr.Errors, e.Code = ManifestUnknownErrorCode) :
    (performCheck remote principal (some cursor) ref).err = none ∧
    (∃ current : Version,
      (performCheck remote principal (some cursor) ref).response = [current] ∧
      current.Digest = digest.String) ∧
    cursor ∉ (performCheck remote principal (some cursor) ref).response := by
  have hMissing := checkMissingManifest_transport_of_mem rErr hUnknown
  have hne : cursor ≠ { Tag := "", Digest := digest.String } := by
    intro h
    exact hDiffer (by rw [h])
  simp [performCheck, hImage, hDigest, hDiffer, hCursorImage, hMissing, hne]

/-- Witness of C4 on the sample registry: the cursor `sha256:dead` is unknown
to the registry. -/
theorem performCheck_stale_cursor_witness :
    (performCheck Sample.remote Sample.anonymous
      (some { Tag := "latest", Digest := "sha256:dead" }) (Sample.repo.Tag "latest")).err = none ∧
    (∃ current : Version,
      (performCheck Sample.remote Sample.anonymous
        (some { Tag := "latest", Digest := "sha256:dead" })
        (Sample.repo.Tag "latest")).response = [current] ∧
      current.Digest = Sample.latestHash.String) ∧
    ({ Tag := "latest", Digest := "sha256:dead" } : Version) ∉
      (performCheck Sample.remote Sample.anonymous
        (some { Tag := "latest", Digest := "sha256:dead" })
        (Sample.repo.Tag "latest")).response :=
  performCheck_stale_cursor Sample.remote Sample.anonymous
    { Tag := "latest", Digest := "sha256:dead" } (Sample.repo.Tag "latest")
    { Digest := .ok Sample.latestHash } Sample.latestHash
    { Errors := [{ Code := "MANIFEST_UNKNOWN", Message := "manifest unknown" }],
      StatusCode := 404 }
    (by simp [Sample.remote]) rfl (by decide) (by rfl)
    ⟨{ Code := "MANIFEST_UNKNOWN", Message := "manifest unknown" }, by simp, rfl⟩

/-- C5. Single-tag check with an absent tag: when resolving the tracked tag
fails with a registry error that carries a `MANIFEST_UNKNOWN` entry,
`performCheck` returns the empty response and no error whatever the cursor
(absent or present), and the only request issued is the one for the tag: the
cursor's digest is never looked up. -/
theorem performCheck_absent_tag (remote : RemoteImage) (principal : BasicCredentials)
    (version : Option Version) (ref : Tag) (rErr : TransportError)
    (hImage : remote (.tag ref) (imageOpts principal) = .error (.transport rErr))
    (hUnknown : ∃ e ∈ rErr.Errors, e.Code = ManifestUnknownErrorCode) :
    (performCheck remote principal version ref).response = [] ∧
    (performCheck remote principal version ref).err = none ∧
    (performCheck remote principal version ref).calls = [.tag ref] := by
  have hMissing := checkMissingManifest_transport_of_mem rErr hUnknown
  simp [performCheck, hImage, hMissing]

/-- Witness of C5 on the sample registry: the tag `not-exist-image` is absent
and a cursor is supplied. -/
theorem performCheck_absent_tag_witness :
    (performCheck Sample.remote Sample.anonymous
      (some { Tag := "latest", Digest := "sha256:aaa" })
      (Sample.repo.Tag "not-exist-image")).response = [] ∧
    (performCheck Sample.remote Sample.anonymous
      (some { Tag := "latest", Digest := "sha256:aaa" })
      (Sample.repo.Tag "not-exist-image")).err = none ∧
    (performCheck Sample.remote Sample.anonymous
      (some { Tag := "latest", Digest := "sha256:aaa" })
      (Sample.repo.Tag "not-exist-image")).calls
      = [.tag (Sample.repo.Tag "not-exist-image")] :=
  performCheck_absent_tag Sample.remote Sample.anonymous
    (some { Tag := "latest", Digest := "sha256:aaa" }) (Sample.repo.Tag "not-exist-image")
    { Errors := [{ Code := "MANIFEST_UNKNOWN", Message := "manifest unknown" }],
      StatusCode := 404 }
    (by rfl)
    ⟨{ Code := "MANIFEST_UNKNOWN", Message := "manifest unknown" }, by simp, rfl⟩

/-- C6. The current Version of a single-tag check, evaluated on the sample
registry for the tracked tag `latest`, which resolves to `sha256:bbb`: with no
cursor, and with an up-to-date cursor that has an empty tag, the Version
returned by `performCheck` and written by `Execute` carries the current digest
but an empty tag, not the tracked tag name `latest`. -/
theorem performCheck_current_version_has_no_tag :
    (performCheck Sample.remote Sample.anonymous none (Sample.repo.Tag "latest")).response
      = [{ Tag := "", Digest := "sha256:bbb" }] ∧
    (performCheck Sample.remote Sample.anonymous
      (some { Tag := "", Digest := "sha256:bbb" }) (Sample.repo.Tag "latest")).response
      = [{ Tag := "", Digest := "sha256:bbb" }] ∧
    (Execute Sample.env "latest").stdout = some [{ Tag := "", Digest := "sha256:bbb" }] ∧
    ({ Tag := "", Digest := "sha256:bbb" } : Version)
      ≠ { Tag := "latest", Digest := "sha256:bbb" } := by
  decide

/-- The possible results of `performCheck`: an error with an empty response; an
absent tag with an empty response; or, the tag resolving to `digest`, the
current Version alone or preceded by the cursor. -/
theorem performCheck_shape (remote : RemoteImage) (principal : BasicCredentials)
    (version : Option Version) (ref : Tag) :
    ((performCheck remote principal version ref).response = [] ∧
      (performCheck remote principal version ref).err ≠ none) ∨
    ((performCheck remote principal version ref).response = [] ∧
      (performCheck remote principal version ref).err = none ∧
      ∃ err, remote (.tag ref) (imageOpts principal) = .error err ∧
        checkMissingManifest err = true) ∨
    (∃ image digest, remote (.tag ref) (imageOpts principal) = .ok image ∧
      image.Digest = .ok digest ∧
      (performCheck remote principal version ref).err = none ∧
      ((performCheck remote principal version ref).response
          = [{ Tag := "", Digest := digest.String }] ∨
        ∃ cursor, version = some cursor ∧ cursor.Digest ≠ digest.String ∧
          (performCheck remote principal version ref).response
            = [cursor, { Tag := "", Digest := digest.String }])) := by
  cases hImage : remote (.tag ref) (imageOpts principal) with
  | error err =>
    by_cases hMissing : checkMissingManifest err = true
    · simp [performCheck, hImage, hMissing]
    · simp [performCheck, hImage, hMissing]
  | ok image =>
    cases hDigest : image.Digest with
    | error err => simp [performCheck, hImage, hDigest]
    | ok digest =>
      cases version with
      | none => simp [performCheck, hImage, hDigest]
      | some cursor =>
        by_cases hSame : cursor.Digest = digest.String
        · simp [performCheck, hImage, hDigest, hSame]
        · cases hCursorImage : remote (.digest (ref.Repository.Digest cursor.Digest))
              (imageOpts principal) with
          | error err =>
            by_cases hMissing : checkMissingManifest err = true
            · simp [performCheck, hImage, hDigest, hSame, hCursorImage, hMissing]
            · simp [performCheck, hImage, hDigest, hSame, hCursorImage, hMissing]
          | ok digestImage =>
            cases hCursorDigest : digestImage.Digest with
            | error err =>
              simp [performCheck, hImage, hDigest, hSame, hCursorImage, hCursorDigest]
            | ok cursorHash =>
              simp [performCheck, hImage, hDigest, hSame, hCursorImage, hCursorDigest]

/-- C7. For every registry, principal, optional cursor and tag reference the
response of `performCheck` has at most two Versions. -/
theorem performCheck_length_le_two (remote : RemoteImage) (principal : BasicCredentials)
    (version : Option Version) (ref : Tag) :
    (performCheck remote principal version ref).response.length ≤ 2 := by
  rcases performCheck_shape remote principal version ref with
    ⟨h, _⟩ | ⟨h, _⟩ | ⟨_, _, _, _, _, h | ⟨_, _, _, h⟩⟩ <;> simp [h]

/-- C8. Whenever `performCheck` returns a non-empty response, the tracked tag
resolves to some `digest`, the last element of the response is the current
Version (its digest is `digest`), and what precedes it is nothing or the
cursor alone. -/
theorem performCheck_last_is_current (remote : RemoteImage)
    (principal : BasicCredentials) (version : Option Version) (ref : Tag)
    (hNonEmpty : (performCheck remote principal version ref).response ≠ []) :
    ∃ image digest current,
      remote (.tag ref) (imageOpts principal) = .ok image ∧
      image.Digest = .ok digest ∧
      current.Digest = digest.String ∧
      (performCheck remote principal version ref).response.getLast? = some current ∧
      ((performCheck remote principal version ref).response.dropLast = [] ∨
        ∃ cursor, version = some cursor ∧
          (performCheck remote principal version ref).response.dropLast = [cursor]) := by
  rcases performCheck_shape remote principal version ref with
    ⟨h, _⟩ | ⟨h, _⟩ | ⟨image, digest, hImage, hDigest, _, h | ⟨cursor, hCursor, _, h⟩⟩
  · exact absurd h hNonEmpty
  · exact absurd h hNonEmpty
  · exact ⟨image, digest, { Tag := "", Digest := digest.String }, hImage, hDigest, rfl,
      by simp [h], Or.inl (by simp [h])⟩
  · exact ⟨image, digest, { Tag := "", Digest := digest.String }, hImage, hDigest, rfl,
      by simp [h], Or.inr ⟨cursor, hCursor, by simp [h]⟩⟩

/-- Witness of C8 on the sample registry, with the out-of-date cursor
`sha256:aaa`: the response is the cursor followed by the current Version. -/
theorem performCheck_last_is_current_witness :
    (performCheck Sample.remote Sample.anonymous
      (some { Tag := "latest", Digest := "sha256:aaa" }) (Sample.repo.Tag "latest")).response
      ≠ [] ∧
    ∃ image digest current,
      Sample.remote (.tag (Sample.repo.Tag "latest")) (imageOpts Sample.anonymous)
        = .ok image ∧
      image.Digest = .ok digest ∧
      current.Digest = digest.String ∧
      (performCheck Sample.remote Sample.anonymous
        (some { Tag := "latest", Digest := "sha256:aaa" })
        (Sample.repo.Tag "latest")).response.getLast? = some current ∧
      ((performCheck Sample.remote Sample.anonymous
          (some { Tag := "latest", Digest := "sha256:aaa" })
          (Sample.repo.Tag "latest")).response.dropLast = [] ∨
        ∃ cursor, some ({ Tag := "latest", Digest := "sha256:aaa" } : Version) = some cursor ∧
          (performCheck Sample.remote Sample.anonymous
            (some { Tag := "latest", Digest := "sha256:aaa" })
            (Sample.repo.Tag "latest")).response.dropLast = [cursor]) :=
  ⟨by decide,
   performCheck_last_is_current Sample.remote Sample.anonymous
    (some { Tag := "latest", Digest := "sha256:aaa" }) (Sample.repo.Tag "latest")
    (by decide)⟩

/-! ## Theorems: `checkWithRetry` -/

/-- Retrying an operation that gives the same result on every attempt returns
that result; the request log only ever grows by that operation's requests. -/
theorem RetryOnRateLimit_fixed (isRateLimit : Error → Bool) (r : CheckResult)
    (retries : Nat) (st : CheckResponse × List Reference) :
    (RetryOnRateLimit isRateLimit retries
        (fun st => (r.err, (r.response, st.2 ++ r.calls))) st).1 = r.err ∧
    (RetryOnRateLimit isRateLimit retries
        (fun st => (r.err, (r.response, st.2 ++ r.calls))) st).2.1 = r.response ∧
    ∀ c ∈ (RetryOnRateLimit isRateLimit retries
        (fun st => (r.err, (r.response, st.2 ++ r.calls))) st).2.2, c ∈ st.2 ∨ c ∈ r.calls := by
  induction retries generalizing st with
  | zero =>
    refine ⟨rfl, rfl, ?_⟩
    intro c hc
    simpa [RetryOnRateLimit] using hc
  | succ n ih =>
    cases hErr : r.err with
    | none =>
      refine ⟨by simp [RetryOnRateLimit, hErr], by simp [RetryOnRateLimit, hErr], ?_⟩
      intro c hc
      simpa [RetryOnRateLimit, hErr] using hc
    | some err =>
      by_cases hLimit : isRateLimit err = true
      · have h := ih (r.response, st.2 ++ r.calls)
        simp only [RetryOnRateLimit, hErr, hLimit, if_true] at h ⊢
        refine ⟨h.1, h.2.1, ?_⟩
        intro c hc
        rcases h.2.2 c hc with hc1 | hc2
        · rcases List.mem_append.mp hc1 with h1 | h2
          · exact Or.inl h1
          · exact Or.inr h2
        · exact Or.inr hc2
      · refine ⟨by simp [RetryOnRateLimit, hErr, hLimit],
          by simp [RetryOnRateLimit, hErr, hLimit], ?_⟩
        intro c hc
        simpa [RetryOnRateLimit, hErr, hLimit] using hc

/-- The response of `checkWithRetry` is that of `performCheck`. -/
theorem checkWithRetry_response (env : Env) (principal : BasicCredentials)
    (version : Option Version) (ref : Tag) :
    (checkWithRetry env principal version ref).response
      = (performCheck env.remote principal version ref).response :=
  (RetryOnRateLimit_fixed env.isRateLimit (performCheck env.remote principal version ref)
    env.retries ([], [])).2.1

/-- The error of `checkWithRetry` is that of `performCheck`. -/
theorem checkWithRetry_err (env : Env) (principal : BasicCredentials)
    (version : Option Version) (ref : Tag) :
    (checkWithRetry env principal version ref).err
      = (performCheck env.remote principal version ref).err :=
  (RetryOnRateLimit_fixed env.isRateLimit (performCheck env.remote principal version ref)
    env.retries ([], [])).1

/-- The requests of `performCheck`: the tracked tag, then possibly the
cursor's digest in the same repository. -/
theorem performCheck_calls (remote : RemoteImage) (principal : BasicCredentials)
    (version : Option Version) (ref : Tag) :
    (performCheck remote principal version ref).calls = [.tag ref] ∨
    ∃ cursor, version = some cursor ∧
      (performCheck remote principal version ref).calls
        = [.tag ref, .digest (ref.Repository.Digest cursor.Digest)] := by
  cases hImage : remote (.tag ref) (imageOpts principal) with
  | error err =>
    by_cases hMissing : checkMissingManifest err = true
    · simp [performCheck, hImage, hMissing]
    · simp [performCheck, hImage, hMissing]
  | ok image =>
    cases hDigest : image.Digest with
    | error err => simp [performCheck, hImage, hDigest]
    | ok digest =>
      cases version with
      | none => simp [performCheck, hImage, hDigest]
      | some cursor =>
        by_cases hSame : cursor.Digest = digest.String
        · simp [performCheck, hImage, hDigest, hSame]
        · cases hCursorImage : remote (.digest (ref.Repository.Digest cursor.Digest))
              (imageOpts principal) with
          | error err =>
            by_cases hMissing : checkMissingManifest err = true
            · simp [performCheck, hImage, hDigest, hSame, hCursorImage, hMissing]
            · simp [performCheck, hImage, hDigest, hSame, hCursorImage, hMissing]
          | ok digestImage =>
            cases hCursorDigest : digestImage.Digest with
            | error err =>
              simp [performCheck, hImage, hDigest, hSame, hCursorImage, hCursorDigest]
            | ok cursorHash =>
              simp [performCheck, hImage, hDigest, hSame, hCursorImage, hCursorDigest]

/-- Every request of `performCheck` is addressed to the repository of the
tracked tag. -/
theorem performCheck_calls_context (remote : RemoteImage) (principal : BasicCredentials)
    (version : Option Version) (ref : Tag) :
    ∀ c ∈ (performCheck remote principal version ref).calls, c.Context = ref.Repository := by
  intro c hc
  rcases performCheck_calls remote principal version ref with h | ⟨cursor, _, h⟩
  · rw [h] at hc
    simp at hc
    subst hc
    rfl
  · rw [h] at hc
    simp at hc
    rcases hc with hc | hc
    · subst hc
      rfl
    · subst hc
      rfl

/-- Every request of `checkWithRetry` is addressed to the repository of the
tracked tag. -/
theorem checkWithRetry_calls_context (env : Env) (principal : BasicCredentials)
    (version : Option Version) (ref : Tag) :
    ∀ c ∈ (checkWithRetry env principal version ref).calls, c.Context = ref.Repository := by
  intro c hc
  rcases (RetryOnRateLimit_fixed env.isRateLimit
    (performCheck env.remote principal version ref) env.retries ([], [])).2.2 c hc with h | h
  · simp at h
  · exact performCheck_calls_context env.remote principal version ref c h

/-! ## Theorems: `Execute` and the mirror -/

/-- A check that returns an error returns the empty response. -/
theorem checkWithRetry_response_of_err (env : Env) (principal : BasicCredentials)
    (version : Option Version) (ref : Tag)
    (h : (checkWithRetry env principal version ref).err ≠ none) :
    (checkWithRetry env principal version ref).response = [] := by
  rw [checkWithRetry_err] at h
  rw [checkWithRetry_response]
  rcases performCheck_shape env.remote principal version ref with
    ⟨hr, _⟩ | ⟨hr, _⟩ | ⟨_, _, _, _, hErr, _⟩
  · exact hr
  · exact hr
  · exact absurd hErr h

/-- The source left by the authentication step for a request without its
mirror is the source left for the request itself, without its mirror. -/
theorem authenticate_without_mirror (env : Env) (src source : Source)
    (hAuth : (if src.AwsAccessKeyId ≠ "" ∧ src.AwsSecretAccessKey ≠ "" ∧
        src.AwsRegion ≠ "" then src.AuthenticateToECR env else some src) = some source) :
    (if ({ src with RegistryMirror := none } : Source).AwsAccessKeyId ≠ "" ∧
        ({ src with RegistryMirror := none } : Source).AwsSecretAccessKey ≠ "" ∧
        ({ src with RegistryMirror := none } : Source).AwsRegion ≠ "" then
        Source.AuthenticateToECR env { src with RegistryMirror := none }
      else some { src with RegistryMirror := none })
      = some { source with RegistryMirror := none } ∧
    source.RegistryMirror = src.RegistryMirror := by
  by_cases hc : src.AwsAccessKeyId ≠ "" ∧ src.AwsSecretAccessKey ≠ "" ∧ src.AwsRegion ≠ ""
  · rw [if_pos hc] at hAuth
    rw [if_pos hc]
    unfold Source.AuthenticateToECR at hAuth ⊢
    cases hEx : env.ExchangeToken src.AwsAccessKeyId src.AwsSecretAccessKey src.AwsRegion with
    | none => simp [hEx] at hAuth
    | some creds =>
      simp only [hEx, Option.some.injEq] at hAuth ⊢
      subst hAuth
      exact ⟨rfl, rfl⟩
  · rw [if_neg hc] at hAuth
    rw [if_neg hc]
    simp only [Option.some.injEq] at hAuth
    subst hAuth
    exact ⟨rfl, rfl⟩

/-- C10. Mirror success. Let a request name a mirror, let authentication and
the parsing of the repository and of the mirror succeed, and let the check
against the mirror return no error and a non-empty response. Then, standard
output being writable, `Execute` returns no error and writes exactly the
mirror's response, and the requests it issues are those of the mirror check,
each addressed to the repository on the mirror: the origin is not contacted,
whatever it would answer. This holds for every repository string, so in
particular for one without an explicit host. -/
theorem Execute_mirror_success (env : Env) (stdin : String)
    (req : CheckRequest) (registryMirror : RegistryMirror) (source : Source)
    (repo mirror : Repository) (registry : Registry)
    (hDecode : env.Decode stdin = .ok req)
    (hMirror : req.Source.RegistryMirror = some registryMirror)
    (hAuth : (if req.Source.AwsAccessKeyId ≠ "" ∧ req.Source.AwsSecretAccessKey ≠ "" ∧
        req.Source.AwsRegion ≠ "" then req.Source.AuthenticateToECR env
      else some req.Source) = some source)
    (hRepo : env.NewRepository source.Repository [NameOption.WeakValidation] = .ok repo)
    (hMirrorRepo : env.NewRepository (env.RepositoryString repo) [] = .ok mirror)
    (hRegistry : env.NewRegistry registryMirror.Host [NameOption.WeakValidation]
      = .ok registry)
    (hOk : (checkWithRetry env registryMirror.BasicCredentials req.Version
      (Repository.Tag { mirror with Registry := registry } source.Tag)).err = none)
    (hNonEmpty : (checkWithRetry env registryMirror.BasicCredentials req.Version
      (Repository.Tag { mirror with Registry := registry } source.Tag)).response ≠ [])
    (hEncode : env.Encode (checkWithRetry env registryMirror.BasicCredentials req.Version
      (Repository.Tag { mirror with Registry := registry } source.Tag)).response = none) :
    (Execute env stdin).err = none ∧
    (Execute env stdin).stdout
      = some (checkWithRetry env registryMirror.BasicCredentials req.Version
          (Repository.Tag { mirror with Registry := registry } source.Tag)).response ∧
    (Execute env stdin).calls
      = (checkWithRetry env registryMirror.BasicCredentials req.Version
          (Repository.Tag { mirror with Registry := registry } source.Tag)).calls ∧
    ∀ c ∈ (Execute env stdin).calls,
      c.Context = { mirror with Registry := registry } := by
  obtain ⟨_, hSame⟩ := authenticate_without_mirror env req.Source source hAuth
  have hSourceMirror : source.RegistryMirror = some registryMirror := by
    rw [hSame, hMirror]
  have hLen : ¬ (checkWithRetry env registryMirror.BasicCredentials req.Version
      (Repository.Tag { mirror with Registry := registry } source.Tag)).response.length
        = 0 := by
    intro h
    exact hNonEmpty (List.length_eq_zero.mp h)
  have hRun : Execute env stdin
      = { err := none,
          stdout := some (checkWithRetry env registryMirror.BasicCredentials req.Version
            (Repository.Tag { mirror with Registry := registry } source.Tag)).response,
          warnings := [],
          calls := (checkWithRetry env registryMirror.BasicCredentials req.Version
            (Repository.Tag { mirror with Registry := registry } source.Tag)).calls } := by
    simp only [Execute, hDecode, hAuth, hRepo, hSourceMirror, hMirrorRepo, hRegistry,
      Execute.origin, hLen, if_false, hOk, Execute.emit, hEncode]
  rw [hRun]
  refine ⟨rfl, rfl, rfl, ?_⟩
  intro c hc
  exact checkWithRetry_calls_context env registryMirror.BasicCredentials req.Version
    (Repository.Tag { mirror with Registry := registry } source.Tag) c hc

/-- Witness of C10 on the sample run: the mirror serves the tag `mirrored`
while the origin refuses the connection for it; the run through the mirror
writes the mirror's Version and only asks the mirror. -/
theorem Execute_mirror_success_witness :
    (Execute Sample.env "mirrored").err ≠ none ∧
    (Execute Sample.env "mirrored via mirror").err = none ∧
    (Execute Sample.env "mirrored via mirror").stdout
      = some (checkWithRetry Sample.env Sample.anonymous none
          (Repository.Tag { Sample.repo with Registry := { registry := "mirror.example:5000" } }
            (Sample.source "mirrored" true).Tag)).response ∧
    (Execute Sample.env "mirrored via mirror").calls
      = (checkWithRetry Sample.env Sample.anonymous none
          (Repository.Tag { Sample.repo with Registry := { registry := "mirror.example:5000" } }
            (Sample.source "mirrored" true).Tag)).calls ∧
    ∀ c ∈ (Execute Sample.env "mirrored via mirror").calls,
      c.Context = { Sample.repo with Registry := { registry := "mirror.example:5000" } } :=
  ⟨by decide,
   Execute_mirror_success Sample.env "mirrored via mirror"
    { Source := Sample.source "mirrored" true, Version := none }
    { Host := "mirror.example:5000", BasicCredentials := Sample.anonymous }
    (Sample.source "mirrored" true) Sample.repo Sample.repo
    { registry := "mirror.example:5000" }
    (by rfl) (by decide) (by decide) (by rfl) (by rfl) (by rfl) (by decide)
    (by decide) (by decide)⟩

/-! ## Theorems: the orchestration in `Execute` -/

/-- C11. A repository string that names its registry host, evaluated on the
second sample: `registry.example:5000/some/fake-image` parses to a repository
on the host `registry.example:5000`, where `latest` is `sha256:ddd`. With a
mirror configured, `Execute` nevertheless asks the mirror host, and here
writes the mirror's image `sha256:eee`, which is not what checking the named
host alone writes. -/
theorem Execute_named_host_asks_mirror :
    Sample.envMore.NewRepository "registry.example:5000/some/fake-image"
        [NameOption.WeakValidation] = .ok Sample.namedRepo ∧
    (Execute Sample.envMore "named host via mirror").calls
      = [.tag (Repository.Tag { Sample.namedRepo with Registry := Sample.mirrorHost }
          "latest")] ∧
    (Execute Sample.envMore "named host via mirror").stdout
      = some [{ Tag := "", Digest := "sha256:eee" }] ∧
    (Execute Sample.envMore "named host").stdout
      = some [{ Tag := "", Digest := "sha256:ddd" }] :=
  ⟨by rfl, by decide, by decide, by decide⟩

/-- C12. Origin failure is fatal. Let the request decode, authentication and
the parsing of the repository succeed, and let the origin check be performed:
either no mirror is configured, or the mirror was checked and left an empty
response. If the origin check returns an error, `Execute` returns the error
"checking origin <registry> failed" naming the origin's registry and wrapping
that error, and writes nothing to standard output. -/
theorem Execute_origin_failure (env : Env) (stdin : String) (req : CheckRequest)
    (source : Source) (repo : Repository) (err : Error)
    (hDecode : env.Decode stdin = .ok req)
    (hAuth : (if req.Source.AwsAccessKeyId ≠ "" ∧ req.Source.AwsSecretAccessKey ≠ "" ∧
        req.Source.AwsRegion ≠ "" then req.Source.AuthenticateToECR env
      else some req.Source) = some source)
    (hRepo : env.NewRepository source.Repository [NameOption.WeakValidation] = .ok repo)
    (hPerformed : source.RegistryMirror = none ∨
      ∃ registryMirror mirror registry,
        source.RegistryMirror = some registryMirror ∧
        env.NewRepository (env.RepositoryString repo) [] = .ok mirror ∧
        env.NewRegistry registryMirror.Host [NameOption.WeakValidation] = .ok registry ∧
        (checkWithRetry env registryMirror.BasicCredentials req.Version
          (Repository.Tag { mirror with Registry := registry } source.Tag)).response = [])
    (hErr : (checkWithRetry env source.BasicCredentials req.Version
      (repo.Tag source.Tag)).err = some err) :
    (Execute env stdin).err
      = some (.errorfS ("checking origin " ++ env.RegistryStr repo.Registry ++ " failed")
          err) ∧
    (Execute env stdin).stdout = none := by
  rcases hPerformed with hNone | ⟨registryMirror, mirror, registry, hSome, hMirrorRepo,
    hRegistry, hEmpty⟩
  · simp [Execute, hDecode, hAuth, hRepo, hNone, Execute.origin, hErr]
    rfl
  · simp [Execute, hDecode, hAuth, hRepo, hSome, hMirrorRepo, hRegistry, hEmpty,
      Execute.origin, hErr]
    rfl

/-- Witness of C12 on the first sample: no mirror, and the origin refuses the
connection for the tag `mirrored`. -/
theorem Execute_origin_failure_witness :
    (Execute Sample.env "mirrored").err
      = some (.errorfS
          ("checking origin " ++ Sample.env.RegistryStr Sample.repo.Registry ++ " failed")
          (.errorfW "get remote image" (.other "connection refused"))) ∧
    (Execute Sample.env "mirrored").stdout = none :=
  Execute_origin_failure Sample.env "mirrored"
    { Source := Sample.source "mirrored" false, Version := none }
    (Sample.source "mirrored" false) Sample.repo
    (.errorfW "get remote image" (.other "connection refused"))
    (by rfl) (by decide) (by rfl) (Or.inl (by decide)) (by decide)

/-- The scan of `checkMissingManifest` leaves `missing` as it is when no entry
has the missing-manifest code. -/
theorem checkMissingManifest_scan_of_not_mem (errors : List Diagnostic) (missing : Bool)
    (h : ∀ e ∈ errors, e.Code ≠ ManifestUnknownErrorCode) :
    checkMissingManifest.scan errors missing = missing := by
  induction errors with
  | nil => rfl
  | cons e rest ih =>
    have he : e.Code ≠ ManifestUnknownErrorCode := h e (List.mem_cons_self e rest)
    have hrest : ∀ x ∈ rest, x.Code ≠ ManifestUnknownErrorCode :=
      fun x hx => h x (List.mem_cons_of_mem e hx)
    simp [checkMissingManifest.scan, he, ih hrest]

/-- An error that is not a transport error carrying a `MANIFEST_UNKNOWN` entry
is not a missing manifest. -/
theorem checkMissingManifest_of_not_unknown (err : Error)
    (h : ∀ rErr, err = .transport rErr →
      ∀ e ∈ rErr.Errors, e.Code ≠ ManifestUnknownErrorCode) :
    checkMissingManifest err = false := by
  cases err with
  | transport rErr =>
    simp [checkMissingManifest, checkMissingManifest_scan_of_not_mem rErr.Errors false
      (h rErr rfl)]
  | errorfW text cause => rfl
  | errorfS text cause => rfl
  | other text => rfl

/-- C13. A failure to resolve the tracked tag that is not a missing manifest:
when `remote.Image` fails for the tag with an error that is not a registry
error carrying a `MANIFEST_UNKNOWN` entry, `performCheck` returns the error
"get remote image" wrapping that error, with an empty response; the tag is not
treated as absent. -/
theorem performCheck_tag_error (remote : RemoteImage) (principal : BasicCredentials)
    (version : Option Version) (ref : Tag) (err : Error)
    (hImage : remote (.tag ref) (imageOpts principal) = .error err)
    (hNotUnknown : ∀ rErr, err = .transport rErr →
      ∀ e ∈ rErr.Errors, e.Code ≠ ManifestUnknownErrorCode) :
    (performCheck remote principal version ref).err
      = some (.errorfW "get remote image" err) ∧
    (performCheck remote principal version ref).response = [] := by
  have hMissing := checkMissingManifest_of_not_unknown err hNotUnknown
  simp [performCheck, hImage, hMissing]

/-- Witness of C13 on the second sample: the registry answers the tag
`private` with the registry error `UNAUTHORIZED`. -/
theorem performCheck_tag_error_witness :
    (performCheck Sample.remoteMore Sample.anonymous none
      (Sample.colourRepo.Tag "private")).err
      = some (.errorfW "get remote image"
          (.transport { Errors := [{ Code := "UNAUTHORIZED", Message := "access denied" }],
                        StatusCode := 401 })) ∧
    (performCheck Sample.remoteMore Sample.anonymous none
      (Sample.colourRepo.Tag "private")).response = [] :=
  performCheck_tag_error Sample.remoteMore Sample.anonymous none
    (Sample.colourRepo.Tag "private")
    (.transport { Errors := [{ Code := "UNAUTHORIZED", Message := "access denied" }],
                  StatusCode := 401 })
    (by rfl)
    (by
      intro rErr h e he
      cases h
      simp at he
      subst he
      decide)

/-- C14. Malformed payload: when the request on standard input cannot be
decoded, `Execute` returns the error "invalid payload" wrapping the decoder's
error, issues no registry request and writes nothing to standard output. -/
theorem Execute_invalid_payload (env : Env) (stdin : String) (err : Error)
    (hDecode : env.Decode stdin = .error err) :
    (Execute env stdin).err = some (.errorfS "invalid payload" err) ∧
    (Execute env stdin).calls = [] ∧
    (Execute env stdin).stdout = none := by
  simp [Execute, hDecode]

/-- Witness of C14 on the first sample: the payload is not a request. -/
theorem Execute_invalid_payload_witness :
    (Execute Sample.env "not a request").err
      = some (.errorfS "invalid payload" (.other "unexpected end of JSON input")) ∧
    (Execute Sample.env "not a request").calls = [] ∧
    (Execute Sample.env "not a request").stdout = none :=
  Execute_invalid_payload Sample.env "not a request"
    (.other "unexpected end of JSON input") (by rfl)

/-- C15. Unparsable repository: when the request decodes and authentication
succeeds but the source's repository string does not parse as a repository
name, `Execute` returns the error "failed to resolve repository" wrapping the
parser's error, issues no registry request (neither to a mirror nor to the
origin) and writes nothing to standard output. -/
theorem Execute_unparsable_repository (env : Env) (stdin : String) (req : CheckRequest)
    (source : Source) (err : Error)
    (hDecode : env.Decode stdin = .ok req)
    (hAuth : (if req.Source.AwsAccessKeyId ≠ "" ∧ req.Source.AwsSecretAccessKey ≠ "" ∧
        req.Source.AwsRegion ≠ "" then req.Source.AuthenticateToECR env
      else some req.Source) = some source)
    (hRepo : env.NewRepository source.Repository [NameOption.WeakValidation] = .error err) :
    (Execute env stdin).err = some (.errorfS "failed to resolve repository" err) ∧
    (Execute env stdin).calls = [] ∧
    (Execute env stdin).stdout = none := by
  simp [Execute, hDecode, hAuth, hRepo]

/-- Witness of C15 on the second sample: the repository string
`Not A Repository` does not parse. -/
theorem Execute_unparsable_repository_witness :
    (Execute Sample.envMore "unparsable repository").err
      = some (.errorfS "failed to resolve repository" (.other "could not parse reference")) ∧
    (Execute Sample.envMore "unparsable repository").calls = [] ∧
    (Execute Sample.envMore "unparsable repository").stdout = none :=
  Execute_unparsable_repository Sample.envMore "unparsable repository"
    { Source := Sample.bare "Not A Repository", Version := none }
    (Sample.bare "Not A Repository") (.other "could not parse reference")
    (by rfl) (by decide) (by rfl)

/-- C16. Cloud-token credentials. For a request that decodes: if the access
key id, the secret access key and the region are all non-empty and
`AuthenticateToECR` fails, `Execute` returns the error "cannot authenticate
with ECR", issues no registry request and writes nothing; and if any of the
three is empty, the outcome of `Execute` is the same whatever the token
exchange would answer, that is, the exchange is not consulted. -/
theorem Execute_cloud_token (env : Env) (stdin : String) (req : CheckRequest)
    (hDecode : env.Decode stdin = .ok req) :
    ((req.Source.AwsAccessKeyId ≠ "" ∧ req.Source.AwsSecretAccessKey ≠ "" ∧
        req.Source.AwsRegion ≠ "") →
      req.Source.AuthenticateToECR env = none →
      (Execute env stdin).err = some (.other "cannot authenticate with ECR") ∧
      (Execute env stdin).calls = [] ∧
      (Execute env stdin).stdout = none) ∧
    ((req.Source.AwsAccessKeyId = "" ∨ req.Source.AwsSecretAccessKey = "" ∨
        req.Source.AwsRegion = "") →
      ∀ exchange : String → String → String → Option BasicCredentials,
        Execute { env with ExchangeToken := exchange } stdin = Execute env stdin) := by
  constructor
  · intro hConfigured hFail
    simp [Execute, hDecode, if_pos hConfigured, hFail]
  · intro hEmpty exchange
    have hNot : ¬ (req.Source.AwsAccessKeyId ≠ "" ∧ req.Source.AwsSecretAccessKey ≠ "" ∧
        req.Source.AwsRegion ≠ "") := by
      rintro ⟨h1, h2, h3⟩
      rcases hEmpty with h | h | h
      · exact h1 h
      · exact h2 h
      · exact h3 h
    have hDecode2 : ({ env with ExchangeToken := exchange } : Env).Decode stdin = .ok req :=
      hDecode
    simp only [Execute, hDecode, hDecode2, if_neg hNot]
    rfl

/-- Witness of C16 on the second sample: the payload `cloud token` has all
three fields set and the exchange fails; the payload `latest` has none of them
set, and an exchange that would succeed changes nothing. -/
theorem Execute_cloud_token_witness :
    ((Execute Sample.envMore "cloud token").err = some (.other "cannot authenticate with ECR") ∧
      (Execute Sample.envMore "cloud token").calls = [] ∧
      (Execute Sample.envMore "cloud token").stdout = none) ∧
    Execute { Sample.envMore with
        ExchangeToken := fun _ _ _ => some { Username := "AWS", Password := "token" } }
        "latest"
      = Execute Sample.envMore "latest" :=
  ⟨(Execute_cloud_token Sample.envMore "cloud token"
      { Source := { Sample.source "latest" false with
          AwsAccessKeyId := "AKIA", AwsSecretAccessKey := "secret",
          AwsRegion := "eu-west-1" },
        Version := none }
      (by rfl)).1 (by decide) (by decide),
   (Execute_cloud_token Sample.envMore "latest"
      { Source := Sample.source "latest" false, Version := none }
      (by rfl)).2 (Or.inl (by decide))
      (fun _ _ _ => some { Username := "AWS", Password := "token" })⟩

/-! ## Theorems: what `Execute` does with a selection policy -/

/-- C17. Strategy selection, evaluated on the second sample for a source whose
regular expression is `gr(a|e)y` and whose semantic-version constraint is
`1.2.x`, in a repository that has the tags `gray` and `grey`: `Execute` issues
the single request for the default tag `latest` and writes that tag's one
Version, exactly as for the same source with neither set; no tag is listed or
filtered. -/
theorem Execute_ignores_regex_and_constraint :
    (∃ req, Sample.envMore.Decode "regex over semver constraint" = .ok req ∧
      req.Source.Regex = "gr(a|e)y" ∧ req.Source.SemverConstraint = "1.2.x" ∧
      req.Source.RawTag = "") ∧
    Execute Sample.envMore "regex over semver constraint"
      = { err := none, stdout := some [{ Tag := "", Digest := "sha256:666" }],
          warnings := [], calls := [.tag (Sample.colourRepo.Tag "latest")] } ∧
    Execute Sample.envMore "regex over semver constraint"
      = Execute Sample.envMore "no regex" :=
  ⟨⟨{ Source := { Sample.bare "colour-image" with
        Regex := "gr(a|e)y", SemverConstraint := "1.2.x" },
      Version := none }, by rfl, rfl, rfl, rfl⟩,
   by decide, by decide⟩

/-- The response of `checkWithRetry` has at most two Versions. -/
theorem checkWithRetry_response_length (env : Env) (principal : BasicCredentials)
    (version : Option Version) (ref : Tag) :
    (checkWithRetry env principal version ref).response.length ≤ 2 := by
  rw [checkWithRetry_response]
  rcases performCheck_shape env.remote principal version ref with
    ⟨h, _⟩ | ⟨h, _⟩ | ⟨_, _, _, _, _, h | ⟨_, _, _, h⟩⟩ <;> simp [h]

/-- The encoding step writes the response it is given, or nothing. -/
theorem Execute_emit_stdout (env : Env) (response : CheckResponse)
    (warnings : List Warning) (calls : List Reference) :
    (Execute.emit env response warnings calls).stdout = none ∨
    (Execute.emit env response warnings calls).stdout = some response := by
  cases hEncode : env.Encode response with
  | some err => simp [Execute.emit, hEncode]
  | none => simp [Execute.emit, hEncode]

/-- The origin step writes at most two Versions when it is entered with at
most two. -/
theorem Execute_origin_stdout_length (env : Env) (source : Source)
    (version : Option Version) (repo : Repository) (response : CheckResponse)
    (warnings : List Warning) (calls : List Reference) (h : response.length ≤ 2) :
    ((Execute.origin env source version repo response warnings calls).stdout.getD
      []).length ≤ 2 := by
  by_cases hLen : response.length = 0
  · cases hErr : (checkWithRetry env source.BasicCredentials version
        (repo.Tag source.Tag)).err with
    | some err => simp [Execute.origin, hLen, hErr]
    | none =>
      have hBound := checkWithRetry_response_length env source.BasicCredentials version
        (repo.Tag source.Tag)
      rcases Execute_emit_stdout env
        (checkWithRetry env source.BasicCredentials version (repo.Tag source.Tag)).response
        warnings
        (calls ++ (checkWithRetry env source.BasicCredentials version
          (repo.Tag source.Tag)).calls) with hOut | hOut
      · simp [Execute.origin, hLen, hErr, hOut]
      · simp [Execute.origin, hLen, hErr, hOut, hBound]
  · rcases Execute_emit_stdout env response warnings calls with hOut | hOut
    · simp [Execute.origin, hLen, hOut]
    · simp [Execute.origin, hLen, hOut, h]

/-- Whatever the request and the registry, `Execute` writes at most two
Versions. -/
theorem Execute_stdout_length (env : Env) (stdin : String) :
    ((Execute env stdin).stdout.getD []).length ≤ 2 := by
  cases hDecode : env.Decode stdin with
  | error err => simp [Execute, hDecode]
  | ok req =>
    cases hAuth : (if req.Source.AwsAccessKeyId ≠ "" ∧ req.Source.AwsSecretAccessKey ≠ "" ∧
        req.Source.AwsRegion ≠ "" then req.Source.AuthenticateToECR env
      else some req.Source) with
    | none => simp [Execute, hDecode, hAuth]
    | some source =>
      cases hRepo : env.NewRepository source.Repository [NameOption.WeakValidation] with
      | error err => simp [Execute, hDecode, hAuth, hRepo]
      | ok repo =>
        cases hMirror : source.RegistryMirror with
        | none =>
          simp only [Execute, hDecode, hAuth, hRepo, hMirror]
          exact Execute_origin_stdout_length env source req.Version repo [] [] [] (by simp)
        | some registryMirror =>
          cases hMirrorRepo : env.NewRepository (env.RepositoryString repo) [] with
          | error err => simp [Execute, hDecode, hAuth, hRepo, hMirror, hMirrorRepo]
          | ok mirror =>
            cases hRegistry : env.NewRegistry registryMirror.Host
                [NameOption.WeakValidation] with
            | error err =>
              simp [Execute, hDecode, hAuth, hRepo, hMirror, hMirrorRepo, hRegistry]
            | ok registry =>
              simp only [Execute, hDecode, hAuth, hRepo, hMirror, hMirrorRepo, hRegistry]
              exact Execute_origin_stdout_length env source req.Version repo _ _ _
                (checkWithRetry_response_length env registryMirror.BasicCredentials
                  req.Version _)

/-- C18. Semver ordering, evaluated on the second sample for the repository
`test-image`, whose tags `1.0.0`, `1.2.1` and `2.0.0` resolve to three distinct
digests, with no cursor: `Execute` only asks for the tag `latest`, which the
repository does not have, and writes the empty response instead of one Version
per tag; and no request and no registry can make `Execute` write three
Versions. -/
theorem Execute_semver_tags_not_discovered :
    ((performCheck Sample.remoteMore Sample.anonymous none
        (Sample.semverRepo.Tag "1.0.0")).response.map Version.Digest = ["sha256:111"] ∧
      (performCheck Sample.remoteMore Sample.anonymous none
        (Sample.semverRepo.Tag "1.2.1")).response.map Version.Digest = ["sha256:333"] ∧
      (performCheck Sample.remoteMore Sample.anonymous none
        (Sample.semverRepo.Tag "2.0.0")).response.map Version.Digest = ["sha256:555"]) ∧
    Execute Sample.envMore "semver tags"
      = { err := none, stdout := some [], warnings := [],
          calls := [.tag (Sample.semverRepo.Tag "latest")] } ∧
    ∀ (env : Env) (stdin : String), ((Execute env stdin).stdout.getD []).length ≤ 2 :=
  ⟨by decide, by decide, Execute_stdout_length⟩

/-- C19. Cursor location in discovery mode, evaluated on the second sample for
the repository `test-image` with the tags `1.0.0`, `1.2.1` and `2.0.0`: for the
cursor `1.2.1` / `sha256:333`, which is the current state of the tag `1.2.1`,
and for the cursor `1.2.1` / `bogus`, which is not, `Execute` only asks for the
tag `latest` and writes the empty response: neither the suffix starting at the
cursor nor the whole ordered sequence. -/
theorem Execute_cursor_not_located :
    (performCheck Sample.remoteMore Sample.anonymous none
      (Sample.semverRepo.Tag "1.2.1")).response.map Version.Digest = ["sha256:333"] ∧
    Execute Sample.envMore "semver tags from 1.2.1"
      = { err := none, stdout := some [], warnings := [],
          calls := [.tag (Sample.semverRepo.Tag "latest")] } ∧
    Execute Sample.envMore "semver tags from bogus"
      = { err := none, stdout := some [], warnings := [],
          calls := [.tag (Sample.semverRepo.Tag "latest")] } := by
  decide

/-! ## Theorems: errors of the cursor lookup and of the mirror -/

/-- An error that `checkMissingManifest` accepts is a transport error with a
`MANIFEST_UNKNOWN` entry. -/
theorem checkMissingManifest_elim (err : Error) (h : checkMissingManifest err = true) :
    ∃ rErr, err = .transport rErr ∧ ∃ e ∈ rErr.Errors, e.Code = ManifestUnknownErrorCode := by
  by_contra hNone
  have hAll : ∀ rErr, err = .transport rErr →
      ∀ e ∈ rErr.Errors, e.Code ≠ ManifestUnknownErrorCode := by
    intro rErr hErr e he hCode
    exact hNone ⟨rErr, hErr, e, he, hCode⟩
  rw [checkMissingManifest_of_not_unknown err hAll] at h
  exact Bool.false_ne_true h

/-- C21. Errors of the cursor lookup. Let the tag resolve to `digest` and the
cursor's digest differ from it. If resolving the cursor's digest fails with an
error that is not a registry error carrying a `MANIFEST_UNKNOWN` entry,
`performCheck` returns "get remote image" wrapping it and an empty response; if
the cursor's image is found but its digest cannot be computed, `performCheck`
returns "get cursor image digest" wrapping that error and an empty response;
and if `performCheck` returns no error and a response without the cursor, then
the lookup of the cursor's digest failed with a registry error carrying a
`MANIFEST_UNKNOWN` entry. -/
theorem performCheck_cursor_error (remote : RemoteImage) (principal : BasicCredentials)
    (cursor : Version) (ref : Tag) (image : Image) (digest : Hash)
    (hImage : remote (.tag ref) (imageOpts principal) = .ok image)
    (hDigest : image.Digest = .ok digest)
    (hDiffer : cursor.Digest ≠ digest.String) :
    (∀ err, remote (.digest (ref.Repository.Digest cursor.Digest)) (imageOpts principal)
        = .error err →
      (∀ rErr, err = .transport rErr →
        ∀ e ∈ rErr.Errors, e.Code ≠ ManifestUnknownErrorCode) →
      (performCheck remote principal (some cursor) ref).err
        = some (.errorfW "get remote image" err) ∧
      (performCheck remote principal (some cursor) ref).response = []) ∧
    (∀ digestImage err,
      remote (.digest (ref.Repository.Digest cursor.Digest)) (imageOpts principal)
        = .ok digestImage →
      digestImage.Digest = .error err →
      (performCheck remote principal (some cursor) ref).err
        = some (.errorfW "get cursor image digest" err) ∧
      (performCheck remote principal (some cursor) ref).response = []) ∧
    ((performCheck remote principal (some cursor) ref).err = none →
      cursor ∉ (performCheck remote principal (some cursor) ref).response →
      ∃ rErr, remote (.digest (ref.Repository.Digest cursor.Digest)) (imageOpts principal)
          = .error (.transport rErr) ∧
        ∃ e ∈ rErr.Errors, e.Code = ManifestUnknownErrorCode) := by
  refine ⟨?_, ?_, ?_⟩
  · intro err hCursorImage hNotUnknown
    have hMissing := checkMissingManifest_of_not_unknown err hNotUnknown
    simp [performCheck, hImage, hDigest, hDiffer, hCursorImage, hMissing]
  · intro digestImage err hCursorImage hCursorDigest
    simp [performCheck, hImage, hDigest, hDiffer, hCursorImage, hCursorDigest]
  · intro hNoErr hDropped
    cases hCursorImage : remote (.digest (ref.Repository.Digest cursor.Digest))
        (imageOpts principal) with
    | error err =>
      by_cases hMissing : checkMissingManifest err = true
      · obtain ⟨rErr, hErr, hUnknown⟩ := checkMissingManifest_elim err hMissing
        exact ⟨rErr, by rw [hErr], hUnknown⟩
      · simp [performCheck, hImage, hDigest, hDiffer, hCursorImage, hMissing] at hNoErr
    | ok digestImage =>
      cases hCursorDigest : digestImage.Digest with
      | error err =>
        simp [performCheck, hImage, hDigest, hDiffer, hCursorImage, hCursorDigest] at hNoErr
      | ok cursorHash =>
        simp [performCheck, hImage, hDigest, hDiffer, hCursorImage, hCursorDigest]
          at hDropped

/-- Witness of C21 on the sample registries: the cursor `sha256:locked` is
refused, the cursor `sha256:broken` has an image without a digest, and the
cursor `sha256:dead`, which is dropped without error, is unknown to the
registry. -/
theorem performCheck_cursor_error_witness :
    ((performCheck Sample.remoteFaulty Sample.anonymous
        (some { Tag := "latest", Digest := "sha256:locked" }) (Sample.repo.Tag "latest")).err
        = some (.errorfW "get remote image" Sample.unauthorized) ∧
      (performCheck Sample.remoteFaulty Sample.anonymous
        (some { Tag := "latest", Digest := "sha256:locked" })
        (Sample.repo.Tag "latest")).response = []) ∧
    ((performCheck Sample.remoteFaulty Sample.anonymous
        (some { Tag := "latest", Digest := "sha256:broken" }) (Sample.repo.Tag "latest")).err
        = some (.errorfW "get cursor image digest" (.other "unexpected EOF")) ∧
      (performCheck Sample.remoteFaulty Sample.anonymous
        (some { Tag := "latest", Digest := "sha256:broken" })
        (Sample.repo.Tag "latest")).response = []) ∧
    ∃ rErr, Sample.remote (.digest ((Sample.repo.Tag "latest").Repository.Digest
          ({ Tag := "latest", Digest := "sha256:dead" } : Version).Digest))
          (imageOpts Sample.anonymous) = .error (.transport rErr) ∧
      ∃ e ∈ rErr.Errors, e.Code = ManifestUnknownErrorCode :=
  ⟨(performCheck_cursor_error Sample.remoteFaulty Sample.anonymous
      { Tag := "latest", Digest := "sha256:locked" } (Sample.repo.Tag "latest")
      { Digest := .ok Sample.latestHash } Sample.latestHash (by rfl) rfl (by decide)).1
      Sample.unauthorized (by rfl)
      (by
        intro rErr h e he
        cases h
        simp at he
        subst he
        decide),
   (performCheck_cursor_error Sample.remoteFaulty Sample.anonymous
      { Tag := "latest", Digest := "sha256:broken" } (Sample.repo.Tag "latest")
      { Digest := .ok Sample.latestHash } Sample.latestHash (by rfl) rfl (by decide)).2.1
      { Digest := .error (.other "unexpected EOF") } (.other "unexpected EOF") (by rfl) rfl,
   (performCheck_cursor_error Sample.remote Sample.anonymous
      { Tag := "latest", Digest := "sha256:dead" } (Sample.repo.Tag "latest")
      { Digest := .ok Sample.latestHash } Sample.latestHash (by rfl) rfl (by decide)).2.2
      (by decide) (by decide)⟩

/-- Retrying an operation that gives the same result on every attempt keeps
every request logged before and logs the operation's requests. -/
theorem RetryOnRateLimit_calls_kept (isRateLimit : Error → Bool) (r : CheckResult)
    (retries : Nat) (st : CheckResponse × List Reference) :
    ∀ c, c ∈ st.2 ∨ c ∈ r.calls →
      c ∈ (RetryOnRateLimit isRateLimit retries
        (fun st => (r.err, (r.response, st.2 ++ r.calls))) st).2.2 := by
  induction retries generalizing st with
  | zero =>
    intro c hc
    simpa [RetryOnRateLimit] using hc
  | succ n ih =>
    intro c hc
    cases hErr : r.err with
    | none => simpa [RetryOnRateLimit, hErr] using hc
    | some err =>
      by_cases hLimit : isRateLimit err = true
      · have h := ih (r.response, st.2 ++ r.calls) c
          (Or.inl (List.mem_append.mpr hc))
        simpa only [RetryOnRateLimit, hErr, hLimit, if_true] using h
      · simpa [RetryOnRateLimit, hErr, hLimit] using hc

/-- A check always asks the registry for the tracked tag. -/
theorem checkWithRetry_calls_tag (env : Env) (principal : BasicCredentials)
    (version : Option Version) (ref : Tag) :
    Reference.tag ref ∈ (checkWithRetry env principal version ref).calls := by
  apply RetryOnRateLimit_calls_kept env.isRateLimit
    (performCheck env.remote principal version ref) env.retries ([], [])
  right
  rcases performCheck_calls env.remote principal version ref with h | ⟨_, _, h⟩ <;>
    simp [h]

/-- Entered with an empty response, the origin step issues the requests of the
origin check after those already logged. -/
theorem Execute_origin_calls_of_empty (env : Env) (source : Source)
    (version : Option Version) (repo : Repository) (warnings : List Warning)
    (calls : List Reference) :
    (Execute.origin env source version repo [] warnings calls).calls
      = calls ++ (checkWithRetry env source.BasicCredentials version
          (repo.Tag source.Tag)).calls := by
  cases hErr : (checkWithRetry env source.BasicCredentials version
      (repo.Tag source.Tag)).err with
  | some err => simp [Execute.origin, hErr]
  | none =>
    cases hEncode : env.Encode (checkWithRetry env source.BasicCredentials version
        (repo.Tag source.Tag)).response with
    | some err => simp [Execute.origin, hErr, Execute.emit, hEncode]
    | none => simp [Execute.origin, hErr, Execute.emit, hEncode]

/-- C22. An error comes with an empty response. Whenever `performCheck`
returns an error, the response returned with it is empty. Consequently, when
`Execute` checks a mirror and that check returns an error, the mirror's
response has length 0 and the origin check is performed: the requests of
`Execute` are those of the mirror check followed by those of the origin check,
among them the request for the tracked tag at the origin. -/
theorem performCheck_error_response_empty :
    (∀ (remote : RemoteImage) (principal : BasicCredentials) (version : Option Version)
        (ref : Tag),
      (performCheck remote principal version ref).err ≠ none →
      (performCheck remote principal version ref).response = []) ∧
    (∀ (env : Env) (stdin : String) (req : CheckRequest) (registryMirror : RegistryMirror)
        (source : Source) (repo mirror : Repository) (registry : Registry),
      env.Decode stdin = .ok req →
      req.Source.RegistryMirror = some registryMirror →
      (if req.Source.AwsAccessKeyId ≠ "" ∧ req.Source.AwsSecretAccessKey ≠ "" ∧
          req.Source.AwsRegion ≠ "" then req.Source.AuthenticateToECR env
        else some req.Source) = some source →
      env.NewRepository source.Repository [NameOption.WeakValidation] = .ok repo →
      env.NewRepository (env.RepositoryString repo) [] = .ok mirror →
      env.NewRegistry registryMirror.Host [NameOption.WeakValidation] = .ok registry →
      (checkWithRetry env registryMirror.BasicCredentials req.Version
        (Repository.Tag { mirror with Registry := registry } source.Tag)).err ≠ none →
      (checkWithRetry env registryMirror.BasicCredentials req.Version
        (Repository.Tag { mirror with Registry := registry } source.Tag)).response.length
        = 0 ∧
      (Execute env stdin).calls
        = (checkWithRetry env registryMirror.BasicCredentials req.Version
            (Repository.Tag { mirror with Registry := registry } source.Tag)).calls
          ++ (checkWithRetry env source.BasicCredentials req.Version
            (repo.Tag source.Tag)).calls ∧
      Reference.tag (repo.Tag source.Tag) ∈ (Execute env stdin).calls) := by
  constructor
  · intro remote principal version ref hErr
    rcases performCheck_shape remote principal version ref with
      ⟨h, _⟩ | ⟨h, _⟩ | ⟨_, _, _, _, hNone, _⟩
    · exact h
    · exact h
    · exact absurd hNone hErr
  · intro env stdin req registryMirror source repo mirror registry hDecode hMirror hAuth
      hRepo hMirrorRepo hRegistry hErr
    have hEmpty := checkWithRetry_response_of_err env registryMirror.BasicCredentials
      req.Version (Repository.Tag { mirror with Registry := registry } source.Tag) hErr
    obtain ⟨_, hSame⟩ := authenticate_without_mirror env req.Source source hAuth
    have hSourceMirror : source.RegistryMirror = some registryMirror := by
      rw [hSame, hMirror]
    have hCalls : (Execute env stdin).calls
        = (checkWithRetry env registryMirror.BasicCredentials req.Version
            (Repository.Tag { mirror with Registry := registry } source.Tag)).calls
          ++ (checkWithRetry env source.BasicCredentials req.Version
            (repo.Tag source.Tag)).calls := by
      simp only [Execute, hDecode, hAuth, hRepo, hSourceMirror, hMirrorRepo, hRegistry,
        hEmpty]
      exact Execute_origin_calls_of_empty env source req.Version repo _ _
    refine ⟨by rw [hEmpty]; rfl, hCalls, ?_⟩
    rw [hCalls]
    exact List.mem_append.mpr (Or.inr
      (checkWithRetry_calls_tag env source.BasicCredentials req.Version
        (repo.Tag source.Tag)))

/-- Witness of C22 on the third sample: the cursor `sha256:locked` makes
`performCheck` fail with an empty response; and with the mirror out of reach
the mirror check fails, its response is empty, and `Execute` goes on to ask the
origin for the tag `latest`. -/
theorem performCheck_error_response_empty_witness :
    (performCheck Sample.remoteFaulty Sample.anonymous
      (some { Tag := "latest", Digest := "sha256:locked" })
      (Sample.repo.Tag "latest")).response = [] ∧
    (checkWithRetry Sample.envFaulty Sample.anonymous none
      (Repository.Tag { Sample.repo with Registry := { registry := "mirror.example:5000" } }
        (Sample.source "latest" true).Tag)).response.length = 0 ∧
    (Execute Sample.envFaulty "latest via mirror").calls
      = (checkWithRetry Sample.envFaulty Sample.anonymous none
          (Repository.Tag
            { Sample.repo with Registry := { registry := "mirror.example:5000" } }
            (Sample.source "latest" true).Tag)).calls
        ++ (checkWithRetry Sample.envFaulty Sample.anonymous none
          (Sample.repo.Tag (Sample.source "latest" true).Tag)).calls ∧
    Reference.tag (Sample.repo.Tag (Sample.source "latest" true).Tag)
      ∈ (Execute Sample.envFaulty "latest via mirror").calls :=
  ⟨performCheck_error_response_empty.1 Sample.remoteFaulty Sample.anonymous
      (some { Tag := "latest", Digest := "sha256:locked" }) (Sample.repo.Tag "latest")
      (by decide),
   performCheck_error_response_empty.2 Sample.envFaulty "latest via mirror"
      { Source := Sample.source "latest" true, Version := none }
      { Host := "mirror.example:5000", BasicCredentials := Sample.anonymous }
      (Sample.source "latest" true) Sample.repo Sample.repo
      { registry := "mirror.example:5000" }
      (by rfl) (by decide) (by decide) (by rfl) (by rfl) (by rfl) (by decide)⟩

/-- C23. Unparsable mirror host. Let a request name a mirror and let
authentication and the parsing of the repository and of the mirror repository
succeed. If the mirror's host does not parse as a registry name, `Execute`
returns the error "could not resolve registry" wrapping the parser's error,
issues no registry request (the origin is not checked), logs no warning and
writes nothing to standard output. -/
theorem Execute_unparsable_mirror_host (env : Env) (stdin : String)
    (req : CheckRequest) (registryMirror : RegistryMirror) (source : Source)
    (repo mirror : Repository) (err : Error)
    (hDecode : env.Decode stdin = .ok req)
    (hMirror : req.Source.RegistryMirror = some registryMirror)
    (hAuth : (if req.Source.AwsAccessKeyId ≠ "" ∧ req.Source.AwsSecretAccessKey ≠ "" ∧
        req.Source.AwsRegion ≠ "" then req.Source.AuthenticateToECR env
      else some req.Source) = some source)
    (hRepo : env.NewRepository source.Repository [NameOption.WeakValidation] = .ok repo)
    (hMirrorRepo : env.NewRepository (env.RepositoryString repo) [] = .ok mirror)
    (hRegistry : env.NewRegistry registryMirror.Host [NameOption.WeakValidation]
      = .error err) :
    (Execute env stdin).err = some (.errorfS "could not resolve registry" err) ∧
    (Execute env stdin).calls = [] ∧
    (Execute env stdin).warnings = [] ∧
    (Execute env stdin).stdout = none := by
  obtain ⟨_, hSame⟩ := authenticate_without_mirror env req.Source source hAuth
  have hSourceMirror : source.RegistryMirror = some registryMirror := by
    rw [hSame, hMirror]
  simp [Execute, hDecode, hAuth, hRepo, hSourceMirror, hMirrorRepo, hRegistry]

/-- Witness of C23 on the last sample: the mirror's host is rejected by the
registry-name parser, while the same request without the mirror succeeds. -/
theorem Execute_unparsable_mirror_host_witness :
    (Execute Sample.envNoRegistry "latest").err = none ∧
    (Execute Sample.envNoRegistry "latest via mirror").err
      = some (.errorfS "could not resolve registry" (.other "could not parse registry")) ∧
    (Execute Sample.envNoRegistry "latest via mirror").calls = [] ∧
    (Execute Sample.envNoRegistry "latest via mirror").warnings = [] ∧
    (Execute Sample.envNoRegistry "latest via mirror").stdout = none :=
  ⟨by decide,
   Execute_unparsable_mirror_host Sample.envNoRegistry "latest via mirror"
    { Source := Sample.source "latest" true, Version := none }
    { Host := "mirror.example:5000", BasicCredentials := Sample.anonymous }
    (Sample.source "latest" true) Sample.repo Sample.repo
    (.other "could not parse registry")
    (by rfl) (by decide) (by decide) (by rfl) (by rfl) (by rfl)⟩

/-! ## Theorems: `checkMissingManifest` -/

/-- C24. `checkMissingManifest err` is true if and only if `err` is a registry
transport error whose list of entries has at least one entry with the code
`MANIFEST_UNKNOWN`; so it is false for every other error, in particular for a
transport error with no entries, whatever its status, and for a transport
error that has been wrapped. -/
theorem checkMissingManifest_iff :
    (∀ err : Error, checkMissingManifest err = true ↔
      ∃ rErr, err = .transport rErr ∧
        ∃ e ∈ rErr.Errors, e.Code = ManifestUnknownErrorCode) ∧
    (∀ status : Nat,
      checkMissingManifest (.transport { Errors := [], StatusCode := status }) = false) ∧
    (∀ (text : String) (cause : Error),
      checkMissingManifest (.errorfW text cause) = false) := by
  refine ⟨?_, ?_, ?_⟩
  · intro err
    constructor
    · exact checkMissingManifest_elim err
    · rintro ⟨rErr, hErr, hUnknown⟩
      rw [hErr]
      exact checkMissingManifest_transport_of_mem rErr hUnknown
  · intro status
    rfl
  · intro text cause
    rfl

end RegistryImage
